import Mathlib

/-!
Shallow embedding of the Gemini Playground single-page application
(source file `src/App.tsx`): the chat data model, the transcript stores,
the image request flow, the video job flow with its bounded polling
loop, and the credential handlers.

Modelling conventions: JavaScript numbers fed through `Number(...)` are
modelled as integers (`Option Int`, `none` standing for `NaN`); random
message ids and creation timestamps are omitted as incidental; the
effectful remote calls (generateContent, generateVideos,
getVideosOperation, fetch) are supplied by explicit environment records,
and resource release (`URL.revokeObjectURL`) is modelled by returning
the list of released object URLs.  The source field `aspectRatio` is
rendered here as `aspect`.
-/

namespace GeminiPlayground

/-- Role of a chat message (source: `type Role = 'user' | 'model'`). -/
inductive Role where
  | user
  | model
  deriving DecidableEq, Repr

/-- A content part of a transcript message (source: `type MessagePart`).
The video variant inlines the `metadata` object of the source
(`resolution`, `aspectRatio`, `durationSeconds?`). -/
inductive MessagePart where
  | text (text : String)
  | image (mimeType : String) (data : String) (alt : Option String)
  | video (mimeType : String) (objectUrl : String) (uri : String) (alt : Option String)
      (resolution : String) (aspect : String) (durationSeconds : Option Int)
  deriving DecidableEq, Repr

/-- A transcript message (source: `type Message`), without the random
id and `createdAt` timestamp. -/
structure Message where
  role : Role
  parts : List MessagePart
  deriving DecidableEq, Repr

/-- A pending reference-image attachment (source: `type ReferenceImageState`). -/
structure ReferenceImageState where
  base64 : String
  dataUrl : String
  mimeType : String
  name : String
  deriving DecidableEq, Repr

/-- Source constant `VIDEO_POLL_INTERVAL = 8000` (milliseconds). -/
def VIDEO_POLL_INTERVAL : Nat := 8000

/-- Source constant `MAX_VIDEO_POLLS = 45`. -/
def MAX_VIDEO_POLLS : Nat := 45

/-- Source constant `MIN_VIDEO_DURATION = 5`. -/
def MIN_VIDEO_DURATION : Int := 5

/-- Source constant `MAX_VIDEO_DURATION = 8`. -/
def MAX_VIDEO_DURATION : Int := 8

/-- Source constant `MAX_IMAGE_REFERENCES = 3`. -/
def MAX_IMAGE_REFERENCES : Nat := 3

/-- The React component state of `App`, restricted to the fields the
flow handlers read and write. -/
structure AppState where
  apiKey : String
  isApiKeyModalOpen : Bool
  imageMessages : List Message
  imageInput : String
  isImageLoading : Bool
  imageError : Option String
  imageReferenceImages : List ReferenceImageState
  imageAttachmentError : Option String
  videoMessages : List Message
  videoPrompt : String
  isVideoGenerating : Bool
  videoError : Option String
  videoStatus : Option String
  videoAspect : String
  videoResolution : String
  videoDuration : Int
  videoReferenceImage : Option ReferenceImageState
  deriving DecidableEq, Repr

/-- The object URL held by a video part, if any. -/
def MessagePart.videoObjectUrl : MessagePart → Option String
  | .video _ objectUrl _ _ _ _ _ => some objectUrl
  | _ => none

/-- Source `releaseVideoResources`: revoke the object URL of every video
part of every message.  Modelled as the ordered list of revoked URLs. -/
def releaseVideoResources (messages : List Message) : List String :=
  messages.flatMap fun m => m.parts.filterMap MessagePart.videoObjectUrl

/-- Source `handleVideoDurationChange`: `Number(value)` is modelled as
`Option Int`, with `none` for `NaN`.  A non-numeric value resets the
duration to 6; a numeric one is clamped into
`[MIN_VIDEO_DURATION, MAX_VIDEO_DURATION]`. -/
def handleVideoDurationChange (s : AppState) (numeric : Option Int) : AppState :=
  match numeric with
  | none => { s with videoDuration := 6 }
  | some n => { s with videoDuration := min MAX_VIDEO_DURATION (max MIN_VIDEO_DURATION n) }

/-- JavaScript `String.prototype.trim`, modelled over the character
list so that it is kernel-computable. -/
def trimChars (l : List Char) : List Char :=
  ((l.dropWhile Char.isWhitespace).reverse.dropWhile Char.isWhitespace).reverse

/-- JavaScript `value.trim()`. -/
def jsTrim (s : String) : String := String.mk (trimChars s.data)

/-- JavaScript `s.startsWith(p)`, modelled over character lists. -/
def jsStartsWith (s p : String) : Bool := p.data.isPrefixOf s.data

/-- One hexadecimal digit, as used by percent escapes, via the
character code (48-57 are digits, 65-70 upper case, 97-102 lower
case). -/
def hexDigit (c : Char) : Option Nat :=
  let n := c.toNat
  if 48 ≤ n ∧ n ≤ 57 then some (n - 48)
  else if 65 ≤ n ∧ n ≤ 70 then some (n - 55)
  else if 97 ≤ n ∧ n ≤ 102 then some (n - 87)
  else none

/-- Percent-escape decoding over a character list: every `%hh` pair of
hex digits becomes the character with that code, anything else is kept
verbatim (multi-byte UTF-8 escapes decode byte-wise). -/
def percentDecodeChars : List Char → List Char
  | [] => []
  | '%' :: c1 :: c2 :: rest =>
    match hexDigit c1, hexDigit c2 with
    | some h, some l => Char.ofNat (16 * h + l) :: percentDecodeChars rest
    | _, _ => '%' :: percentDecodeChars (c1 :: c2 :: rest)
  | c :: rest => c :: percentDecodeChars rest

/-- JavaScript `decodeURIComponent`, modelled as percent decoding. -/
def decodeUriComponent (s : String) : String := String.mk (percentDecodeChars s.data)

/-- Result of a credential operation: the new component state together
with the object URLs released by `releaseVideoResources`. -/
structure CredentialResult where
  state : AppState
  released : List String
  deriving DecidableEq, Repr

/-- Source `handleApiKeySave`: store the new key, clear both
transcripts (releasing video resources), clear all errors, inputs,
reference images and the video status, and close the modal. -/
def handleApiKeySave (s : AppState) (nextKey : String) : CredentialResult :=
  { state :=
      { s with
        apiKey := nextKey
        imageMessages := []
        videoMessages := []
        imageError := none
        imageAttachmentError := none
        videoError := none
        imageInput := ""
        imageReferenceImages := []
        videoPrompt := ""
        videoStatus := none
        videoReferenceImage := none
        isApiKeyModalOpen := false }
    released := releaseVideoResources s.videoMessages }

/-- Source `handleClearApiKey`: clear the key, clear both transcripts
(releasing video resources), clear all errors, inputs, reference images
and the video status, and open the modal. -/
def handleClearApiKey (s : AppState) : CredentialResult :=
  { state :=
      { s with
        apiKey := ""
        imageMessages := []
        videoMessages := []
        imageError := none
        imageAttachmentError := none
        videoError := none
        imageInput := ""
        imageReferenceImages := []
        videoPrompt := ""
        videoStatus := none
        videoReferenceImage := none
        isApiKeyModalOpen := true }
    released := releaseVideoResources s.videoMessages }

/-! ## Video job flow -/

/-- The `video` object inside a generated-video entry (`firstVideo` in
the source); its `uri` may be absent, and JavaScript also treats the
empty string as falsy. -/
structure VideoRef where
  uri : Option String
  deriving DecidableEq, Repr

/-- One entry of `operation.response.generatedVideos`. -/
structure GeneratedVideo where
  video : Option VideoRef
  deriving DecidableEq, Repr

/-- The `response` object of a finished video operation. -/
structure OperationResponse where
  generatedVideos : Option (List GeneratedVideo)
  deriving DecidableEq, Repr

/-- A video generation operation as returned by `generateVideos` and
`getVideosOperation`. -/
structure Operation where
  done : Bool
  response : Option OperationResponse
  deriving DecidableEq, Repr

/-- The configuration object submitted with a video generation request
(`config` in `handleGenerateVideo`; source field `aspectRatio` is
rendered as `aspect`). -/
structure VideoConfig where
  numberOfVideos : Nat
  resolution : String
  aspect : String
  durationSeconds : Int
  deriving DecidableEq, Repr

/-- The result of the binary fetch of the generated video, together
with the object URL that `URL.createObjectURL` mints for its blob. -/
structure FetchResponse where
  ok : Bool
  status : Nat
  statusText : String
  blobType : String
  objectUrl : String
  deriving DecidableEq, Repr

/-- Environment of one run of `handleGenerateVideo`: the outcome of the
`generateVideos` submission, of the n-th `getVideosOperation` call
(0-indexed), and of the binary fetch.  `Except.error` models a thrown
or rejected promise. -/
structure VideoEnv where
  submitResult : Except String Operation
  pollResult : Nat → Except String Operation
  fetchResult : Except String FetchResponse

/-- Observable outcome of `handleGenerateVideo`: the final component
state, the submitted configuration (`none` when no remote submission
was issued), the number of `getVideosOperation` calls issued, and
whether the binary fetch was issued. -/
structure VideoResult where
  state : AppState
  submitted : Option VideoConfig
  pollCalls : Nat
  fetchCalled : Bool
  deriving DecidableEq, Repr

/-- Source error message for the poll ceiling. -/
def videoTimeoutMessage : String :=
  "Video generation is taking longer than expected. Please try again later."

/-- Source error message for an empty `generatedVideos`. -/
def noVideosMessage : String := "No videos were generated."

/-- Source error message for a missing video URI. -/
def missingUriMessage : String := "Generated video is missing a URI."

/-- The `while (!operation.done)` loop of `handleGenerateVideo`: with
`polls` checks already issued, either the operation is done, or the
ceiling `MAX_VIDEO_POLLS` has been reached (timeout error), or one more
`getVideosOperation` call is issued after the 8000 ms wait.  The
returned number is the total count of `getVideosOperation` calls. -/
def pollLoop (env : Nat → Except String Operation) (op : Operation) (polls : Nat) :
    Except String Operation × Nat :=
  if op.done then (Except.ok op, polls)
  else if MAX_VIDEO_POLLS ≤ polls then (Except.error videoTimeoutMessage, polls)
  else
    match env polls with
    | Except.error e => (Except.error e, polls + 1)
    | Except.ok next => pollLoop env next (polls + 1)
termination_by MAX_VIDEO_POLLS - polls
decreasing_by simp [MAX_VIDEO_POLLS] at *; omega

/-- The user message appended by `handleGenerateVideo` before the
remote submission: the trimmed prompt plus the optional reference
image. -/
def videoUserMessage (s : AppState) : Message :=
  { role := Role.user
    parts := MessagePart.text (jsTrim s.videoPrompt) ::
      (match s.videoReferenceImage with
       | some r => [MessagePart.image r.mimeType r.base64 (some ("Reference image: " ++ r.name))]
       | none => []) }

/-- The synchronous state updates of `handleGenerateVideo` performed
before the first await: append the user message, clear the prompt and
error, set a submitting status, and raise the generating flag. -/
def videoSubmitPre (s : AppState) : AppState :=
  { s with
    videoMessages := s.videoMessages ++ [videoUserMessage s]
    videoPrompt := ""
    videoError := none
    videoStatus := some "Submitting video generation request…"
    isVideoGenerating := true }

/-- The `catch`/`finally` updates of `handleGenerateVideo`: record the
error, clear the status, and clear the generating flag. -/
def videoFail (s1 : AppState) (msg : String) : AppState :=
  { s1 with videoError := some msg, videoStatus := none, isVideoGenerating := false }

/-- The configuration object built by `handleGenerateVideo` from the
render-time option state. -/
def videoConfigOf (s : AppState) : VideoConfig :=
  { numberOfVideos := 1
    resolution := s.videoResolution
    aspect := s.videoAspect
    durationSeconds := s.videoDuration }

/-- The `try`/`catch` body of `handleGenerateVideo` after the user
message was appended: submission, poll loop, result validation, binary
fetch, and on success the model-message append.  Returns the final
component state, the number of `getVideosOperation` calls, and whether
the binary fetch was issued. -/
def videoTryBlock (s : AppState) (env : VideoEnv) : AppState × Nat × Bool :=
  let trimmed := jsTrim s.videoPrompt
  let s1 := videoSubmitPre s
  match env.submitResult with
  | Except.error e => (videoFail s1 e, 0, false)
  | Except.ok op0 =>
    match pollLoop env.pollResult op0 0 with
    | (Except.error e, polls) => (videoFail s1 e, polls, false)
    | (Except.ok opf, polls) =>
      match opf.response.bind OperationResponse.generatedVideos with
      | none => (videoFail s1 noVideosMessage, polls, false)
      | some gvs =>
        if gvs.length = 0 then (videoFail s1 noVideosMessage, polls, false)
        else
          match (gvs.head?.bind GeneratedVideo.video).bind VideoRef.uri with
          | none => (videoFail s1 missingUriMessage, polls, false)
          | some uri =>
            if uri = "" then (videoFail s1 missingUriMessage, polls, false)
            else
              let decodedUri := decodeUriComponent uri
              match env.fetchResult with
              | Except.error e => (videoFail s1 e, polls, true)
              | Except.ok resp =>
                if resp.ok = false then
                  (videoFail s1 ("Failed to fetch video: " ++ toString resp.status
                    ++ " " ++ resp.statusText), polls, true)
                else
                  let mimeType := if resp.blobType = "" then "video/mp4" else resp.blobType
                  let modelMessage : Message :=
                    { role := Role.model
                      parts := [MessagePart.video mimeType resp.objectUrl decodedUri
                        (some ("Generated video for prompt: " ++ trimmed))
                        s.videoResolution s.videoAspect (some s.videoDuration)] }
                  ({ s1 with
                      videoMessages := s1.videoMessages ++ [modelMessage]
                      videoStatus := none
                      isVideoGenerating := false }, polls, true)

/-- Source `handleGenerateVideo`, as a function of the pre-handler
component state and the remote environment. -/
def handleGenerateVideo (s : AppState) (env : VideoEnv) : VideoResult :=
  let trimmed := jsTrim s.videoPrompt
  if trimmed = "" ∨ s.isVideoGenerating then
    { state := s, submitted := none, pollCalls := 0, fetchCalled := false }
  else if s.apiKey = "" then
    { state := { s with isApiKeyModalOpen := true }
      submitted := none, pollCalls := 0, fetchCalled := false }
  else
    let outcome := videoTryBlock s env
    { state := outcome.1
      submitted := some (videoConfigOf s)
      pollCalls := outcome.2.1
      fetchCalled := outcome.2.2 }

/-! ## Image request flow -/

/-- A content part of an outgoing request (`Part` of the generative SDK
as used here): plain text or inline binary data. -/
inductive ReqPart where
  | text (text : String)
  | inlineData (data : String) (mimeType : String)
  deriving DecidableEq, Repr

/-- Whether a request part is inline binary data. -/
def ReqPart.isInlineData : ReqPart → Bool
  | .inlineData _ _ => true
  | _ => false

/-- One entry of the reconstructed conversation history (`Content`). -/
structure Content where
  role : Role
  parts : List ReqPart
  deriving DecidableEq, Repr

/-- The per-part history mapping of `handleImageSubmit`: a text part
maps to text content; an image part maps to inline binary content only
when its data is non-empty and the role of the owning message is `user`;
video parts are skipped. -/
def buildHistoryPart (role : Role) : MessagePart → Option ReqPart
  | .text t => some (ReqPart.text t)
  | .image mimeType data _ =>
    if data ≠ "" ∧ role = Role.user then some (ReqPart.inlineData data mimeType) else none
  | .video _ _ _ _ _ _ _ => none

/-- The request parts reconstructed from one historical message. -/
def buildHistoryParts (role : Role) (parts : List MessagePart) : List ReqPart :=
  parts.filterMap (buildHistoryPart role)

/-- The reconstructed request history of `handleImageSubmit`: one
content entry per historical message with at least one mapped part. -/
def buildHistory (messages : List Message) : List Content :=
  messages.filterMap fun m =>
    let parts := buildHistoryParts m.role m.parts
    if parts.length = 0 then none else some { role := m.role, parts := parts }

/-- The `inlineData` field of a response part. -/
structure InlineData where
  data : String
  mimeType : Option String
  deriving DecidableEq, Repr

/-- The `fileData` field of a response part. -/
structure FileData where
  fileUri : Option String
  mimeType : Option String
  deriving DecidableEq, Repr

/-- A content part of a generate-content response; each field may be
absent, and one part may carry several of them. -/
structure RespPart where
  inlineData : Option InlineData
  fileData : Option FileData
  text : Option String
  deriving DecidableEq, Repr

/-- The `content` object of a response candidate. -/
structure CandidateContent where
  parts : List RespPart
  deriving DecidableEq, Repr

/-- One candidate of a generate-content response. -/
structure Candidate where
  content : Option CandidateContent
  deriving DecidableEq, Repr

/-- A generate-content response (`response.response` in the source). -/
structure GenResponse where
  candidates : Option (List Candidate)
  deriving DecidableEq, Repr

/-- Source: `response.response.candidates?.flatMap((candidate) =>
candidate.content?.parts ?? []) ?? []`. -/
def respPartsOf (r : GenResponse) : List RespPart :=
  match r.candidates with
  | none => []
  | some cs => cs.flatMap fun c =>
      match c.content with
      | none => []
      | some cc => cc.parts

/-- One iteration of the response-part `forEach` of
`handleImageSubmit`, threading the `(imageParts, textParts)`
accumulator pair: inline image data (with an image mime type) and file
references are pushed onto the image bucket, non-empty text onto the
text bucket. -/
def classifyStep (trimmed : String) (acc : List MessagePart × List MessagePart)
    (part : RespPart) : List MessagePart × List MessagePart :=
  let acc1 :=
    match part.inlineData with
    | some d =>
      if d.data ≠ "" then
        let mimeType := d.mimeType.getD "image/png"
        if jsStartsWith mimeType "image/" then
          (acc.1 ++ [MessagePart.image mimeType d.data
            (some ("Generated image for prompt: " ++ trimmed))], acc.2)
        else acc
      else acc
    | none => acc
  let acc2 :=
    match part.fileData with
    | some fd =>
      match fd.fileUri with
      | some uri =>
        if uri ≠ "" then
          (acc1.1 ++ [MessagePart.image (fd.mimeType.getD "image/png") ""
            (some ("Image available at " ++ uri))], acc1.2)
        else acc1
      | none => acc1
    | none => acc1
  match part.text with
  | some t => if t ≠ "" then (acc2.1, acc2.2 ++ [MessagePart.text t]) else acc2
  | none => acc2

/-- The full response-part `forEach` of `handleImageSubmit`, producing
the `(imageParts, textParts)` buckets. -/
def classifyParts (trimmed : String) (parts : List RespPart) :
    List MessagePart × List MessagePart :=
  parts.foldl (classifyStep trimmed) ([], [])

/-- Declarative per-part image extraction, used to characterise
`classifyParts`: the image bucket contributions of one response part,
in push order. -/
def respImageParts (trimmed : String) (part : RespPart) : List MessagePart :=
  (match part.inlineData with
   | some d =>
     if d.data ≠ "" then
       let mimeType := d.mimeType.getD "image/png"
       if jsStartsWith mimeType "image/" then
         [MessagePart.image mimeType d.data
           (some ("Generated image for prompt: " ++ trimmed))]
       else []
     else []
   | none => []) ++
  (match part.fileData with
   | some fd =>
     match fd.fileUri with
     | some uri =>
       if uri ≠ "" then
         [MessagePart.image (fd.mimeType.getD "image/png") ""
           (some ("Image available at " ++ uri))]
       else []
     | none => []
   | none => [])

/-- Declarative per-part text extraction, used to characterise
`classifyParts`. -/
def respTextPart (part : RespPart) : Option MessagePart :=
  match part.text with
  | some t => if t ≠ "" then some (MessagePart.text t) else none
  | none => none

/-- Environment of one run of `handleImageSubmit`: the outcome of the
`generateContent` call. -/
structure ImageEnv where
  sendResult : Except String GenResponse

/-- Observable outcome of `handleImageSubmit`: the final component
state and the contents of the issued request (`none` when no remote
call was made). -/
structure ImageResult where
  state : AppState
  request : Option (List Content)
  deriving DecidableEq, Repr

/-- Source error message for an empty response. -/
def noImageContentMessage : String :=
  "Gemini did not return any image content for this prompt."

/-- The transcript copies of the pending reference images, as appended
to the user message. -/
def imageReferenceParts (s : AppState) : List MessagePart :=
  s.imageReferenceImages.map fun img =>
    MessagePart.image img.mimeType img.base64 (some ("Reference image: " ++ img.name))

/-- The user message appended by `handleImageSubmit` before the remote
call: the trimmed prompt followed by the reference images. -/
def imageUserMessage (s : AppState) : Message :=
  { role := Role.user
    parts := MessagePart.text (jsTrim s.imageInput) :: imageReferenceParts s }

/-- The synchronous state updates of `handleImageSubmit` performed
before the remote call: append the user message, clear the input and
errors, raise the loading flag, and clear the pending references. -/
def imageSubmitPre (s : AppState) : AppState :=
  { s with
    imageMessages := s.imageMessages ++ [imageUserMessage s]
    imageInput := ""
    isImageLoading := true
    imageError := none
    imageAttachmentError := none
    imageReferenceImages := [] }

/-- The contents of the issued request: the history reconstructed from
the render-time transcript (which does not yet contain the new user
message) followed by the new prompt and inline reference images. -/
def imageRequestContents (s : AppState) : List Content :=
  buildHistory s.imageMessages ++
    [{ role := Role.user
       parts := ReqPart.text (jsTrim s.imageInput) ::
         s.imageReferenceImages.map fun img => ReqPart.inlineData img.base64 img.mimeType }]

/-- Source `handleImageSubmit`, as a function of the pre-handler
component state and the remote environment. -/
def handleImageSubmit (s : AppState) (env : ImageEnv) : ImageResult :=
  let trimmed := jsTrim s.imageInput
  if trimmed = "" ∨ s.isImageLoading then { state := s, request := none }
  else if s.apiKey = "" then
    { state := { s with isApiKeyModalOpen := true }, request := none }
  else
    let s1 := imageSubmitPre s
    let request := imageRequestContents s
    match env.sendResult with
    | Except.error e =>
      { state := { s1 with imageError := some e, isImageLoading := false }
        request := some request }
    | Except.ok resp =>
      let buckets := classifyParts trimmed (respPartsOf resp)
      if buckets.1.length = 0 ∧ buckets.2.length = 0 then
        { state := { s1 with imageError := some noImageContentMessage, isImageLoading := false }
          request := some request }
      else
        let modelMessage : Message := { role := Role.model, parts := buckets.1 ++ buckets.2 }
        { state :=
            { s1 with
              imageMessages := s1.imageMessages ++ [modelMessage]
              isImageLoading := false }
          request := some request }

/-- Whether one run of `handleImageSubmit` past the guards fails: the
remote call throws, or the response yields neither image nor text
parts. -/
def imageSubmitFails (s : AppState) (env : ImageEnv) : Bool :=
  match env.sendResult with
  | Except.error _ => true
  | Except.ok resp =>
    let buckets := classifyParts (jsTrim s.imageInput) (respPartsOf resp)
    buckets.1.isEmpty && buckets.2.isEmpty

/-! ## Reference-image attachment -/

/-- An attached file together with the outcome of `readImageFile` on
it: `Except.ok (base64, dataUrl)` or a read error. -/
structure FileInput where
  ftype : String
  name : String
  readResult : Except String (String × String)

/-- The sequential `for ... await readImageFile` loop of
`handleImageReferenceChange`: the first read error aborts the whole
batch. -/
def readFiles : List FileInput → Except String (List ReferenceImageState)
  | [] => Except.ok []
  | f :: rest =>
    match f.readResult with
    | Except.error e => Except.error e
    | Except.ok rd =>
      match readFiles rest with
      | Except.error e => Except.error e
      | Except.ok imgs =>
        Except.ok ({ base64 := rd.1, dataUrl := rd.2, mimeType := f.ftype, name := f.name } :: imgs)

/-- Source attachment error for a full reference list. -/
def attachCapMessage : String :=
  "You can attach up to " ++ toString MAX_IMAGE_REFERENCES ++ " images per prompt."

/-- Source attachment error for non-image files. -/
def notImagesMessage : String := "Reference files must be images (PNG, JPG, etc.)."

/-- Source attachment error when more valid files were supplied than
slots remain. -/
def attachOverflowMessage : String :=
  "Only " ++ toString MAX_IMAGE_REFERENCES ++ " images can be attached per prompt."

/-- Source `handleImageReferenceChange`, as a function of the state and
the selected files. -/
def handleImageReferenceChange (s : AppState) (files : List FileInput) : AppState :=
  if files.length = 0 then s
  else
    let remainingSlots : Int := (MAX_IMAGE_REFERENCES : Int) - s.imageReferenceImages.length
    if remainingSlots ≤ 0 then
      { s with imageAttachmentError := some attachCapMessage }
    else
      let validFiles := files.filter fun f => jsStartsWith f.ftype "image/"
      if validFiles.length = 0 then
        { s with imageAttachmentError := some notImagesMessage }
      else
        let filesToProcess := validFiles.take remainingSlots.toNat
        match readFiles filesToProcess with
        | Except.error e => { s with imageAttachmentError := some e }
        | Except.ok newImages =>
          let s1 := { s with imageReferenceImages := s.imageReferenceImages ++ newImages }
          if remainingSlots < (validFiles.length : Int) then
            { s1 with imageAttachmentError := some attachOverflowMessage }
          else
            { s1 with imageAttachmentError := none }

/-! ## Helper lemmas -/

/-- If the initial operation is pending and every issued poll returns a
pending operation, the poll loop started at `polls` checks terminates
with the timeout error after exactly `MAX_VIDEO_POLLS` checks. -/
theorem pollLoop_never_done (env : Nat → Except String Operation)
    (henv : ∀ n, ∃ op, env n = Except.ok op ∧ op.done = false) :
    ∀ k op polls, op.done = false → polls + k = MAX_VIDEO_POLLS →
      pollLoop env op polls = (Except.error videoTimeoutMessage, MAX_VIDEO_POLLS) := by
  intro k
  induction k with
  | zero =>
    intro op polls hop hp
    have hpeq : polls = MAX_VIDEO_POLLS := by omega
    subst hpeq
    rw [pollLoop]
    simp [hop]
  | succ k ih =>
    intro op polls hop hp
    obtain ⟨op2, henv2, hdone2⟩ := henv polls
    rw [pollLoop]
    simp only [hop, Bool.false_eq_true, if_false, henv2]
    rw [if_neg (by omega)]
    exact ih op2 (polls + 1) hdone2 (by omega)

/-- One classification step appends the per-part image extraction to
the image bucket and the per-part text extraction to the text
bucket. -/
theorem classifyStep_eq (trimmed : String) (acc : List MessagePart × List MessagePart)
    (part : RespPart) :
    classifyStep trimmed acc part =
      (acc.1 ++ respImageParts trimmed part, acc.2 ++ (respTextPart part).toList) := by
  obtain ⟨accl, accr⟩ := acc
  rcases part with ⟨inl, fd, tx⟩
  simp only [classifyStep, respImageParts, respTextPart]
  rcases inl with _ | ⟨d⟩ <;>
    rcases fd with _ | ⟨_ | uri, fmt⟩ <;>
      rcases tx with _ | ⟨t⟩ <;>
        dsimp only <;> (try split_ifs) <;> simp

/-- The classification fold, started from an arbitrary accumulator,
produces the two order-preserving buckets. -/
theorem foldl_classifyStep (trimmed : String) (parts : List RespPart) :
    ∀ acc : List MessagePart × List MessagePart,
      parts.foldl (classifyStep trimmed) acc =
        (acc.1 ++ parts.flatMap (respImageParts trimmed),
         acc.2 ++ parts.filterMap respTextPart) := by
  induction parts with
  | nil => intro acc; simp
  | cons p ps ih =>
    intro acc
    rw [List.foldl_cons, classifyStep_eq, ih]
    cases h : respTextPart p <;> simp [h, List.filterMap_cons, List.append_assoc]

/-- The buckets built by `classifyParts` are exactly the
order-preserving image and text extractions of the response parts. -/
theorem classifyParts_eq (trimmed : String) (parts : List RespPart) :
    classifyParts trimmed parts =
      (parts.flatMap (respImageParts trimmed), parts.filterMap respTextPart) := by
  rw [classifyParts, foldl_classifyStep]
  simp

/-- A successful batch read yields one reference image per file. -/
theorem readFiles_ok_length :
    ∀ (files : List FileInput) (imgs : List ReferenceImageState),
      readFiles files = Except.ok imgs → imgs.length = files.length := by
  intro files
  induction files with
  | nil =>
    intro imgs h
    simp only [readFiles, Except.ok.injEq] at h
    simp [← h]
  | cons f rest ih =>
    intro imgs h
    simp only [readFiles] at h
    cases hr : f.readResult with
    | error e => rw [hr] at h; exact absurd h (by simp)
    | ok rd =>
      rw [hr] at h
      cases hrest : readFiles rest with
      | error e => rw [hrest] at h; exact absurd h (by simp)
      | ok tail =>
        rw [hrest] at h
        simp only [Except.ok.injEq] at h
        simp [← h, ih tail hrest]

/-- Every object URL held by a video part of a discarded transcript is
in the released list. -/
theorem mem_releaseVideoResources {messages : List Message} {m : Message}
    {p : MessagePart} {u : String}
    (hm : m ∈ messages) (hp : p ∈ m.parts) (hu : p.videoObjectUrl = some u) :
    u ∈ releaseVideoResources messages := by
  unfold releaseVideoResources
  rw [List.mem_flatMap]
  exact ⟨m, hm, List.mem_filterMap.mpr ⟨p, hp, hu⟩⟩

/-! ## Concrete fixtures -/

/-- A ready-to-submit component state: credential present, non-empty
prompts, nothing in flight. -/
def demoState : AppState :=
  { apiKey := "demo-key"
    isApiKeyModalOpen := false
    imageMessages := []
    imageInput := "A red balloon"
    isImageLoading := false
    imageError := none
    imageReferenceImages := []
    imageAttachmentError := none
    videoMessages := []
    videoPrompt := "A red balloon"
    isVideoGenerating := false
    videoError := none
    videoStatus := none
    videoAspect := "16:9"
    videoResolution := "720p"
    videoDuration := 6
    videoReferenceImage := none }

/-- A pending video operation. -/
def demoPendingOp : Operation := { done := false, response := none }

/-- A video environment whose polled operation never reports done. -/
def demoNeverEnv : VideoEnv :=
  { submitResult := Except.ok demoPendingOp
    pollResult := fun _ => Except.ok demoPendingOp
    fetchResult := Except.error "network unreachable" }

/-- A model message holding one materialized video handle. -/
def demoVideoMessage : Message :=
  { role := Role.model
    parts := [MessagePart.video "video/mp4" "blob:demo-1" "https://example.test/video"
      (some "Generated video for prompt: A red balloon") "720p" "16:9" (some 6)] }

/-- A ready state whose video transcript holds one video handle. -/
def demoStateWithVideo : AppState := { demoState with videoMessages := [demoVideoMessage] }

/-- A user message carrying a text part and an image part. -/
def demoUserImageMessage : Message :=
  { role := Role.user
    parts := [MessagePart.text "make it red", MessagePart.image "image/png" "REVG" none] }

/-- A model message carrying an image part and a text part. -/
def demoModelImageMessage : Message :=
  { role := Role.model
    parts := [MessagePart.image "image/png" "QUJD" (some "generated"), MessagePart.text "done"] }

/-- A transcript with a model-authored image part. -/
def demoTranscript : List Message := [demoUserImageMessage, demoModelImageMessage]

/-- A ready state whose image transcript is `demoTranscript`. -/
def demoStateWithHistory : AppState := { demoState with imageMessages := demoTranscript }

/-- A response part carrying inline image data and text. -/
def demoRespPart1 : RespPart :=
  { inlineData := some { data := "QUJD", mimeType := some "image/png" }
    fileData := none
    text := some "Here you go" }

/-- A response part carrying only a remote file locator. -/
def demoRespPart2 : RespPart :=
  { inlineData := none
    fileData := some { fileUri := some "https://files.test/1", mimeType := none }
    text := none }

/-- A response with one candidate and two content parts. -/
def demoGenResponse : GenResponse :=
  { candidates := some [{ content := some { parts := [demoRespPart1, demoRespPart2] } }] }

/-- An image environment whose call succeeds with content. -/
def demoOkImageEnv : ImageEnv := { sendResult := Except.ok demoGenResponse }

/-- An image environment whose call succeeds with no candidates. -/
def demoEmptyImageEnv : ImageEnv := { sendResult := Except.ok { candidates := none } }

/-- An image environment whose call throws. -/
def demoFailImageEnv : ImageEnv := { sendResult := Except.error "offline" }

/-- A state with an empty video prompt and an empty image input. -/
def demoEmptyPromptState : AppState := { demoState with videoPrompt := "   ", imageInput := "" }

/-- A ready state with no credential. -/
def demoNoKeyState : AppState := { demoState with apiKey := "" }

/-- A state with both flows already generating. -/
def demoBusyState : AppState := { demoState with isVideoGenerating := true, isImageLoading := true }

/-- An attachable image file whose read succeeds. -/
def demoFile (n : Nat) : FileInput :=
  { ftype := "image/png"
    name := "photo-" ++ toString n ++ ".png"
    readResult := Except.ok ("ZGF0YQ==", "data-url-" ++ toString n) }

/-- Five valid image files, two more than the attachment cap. -/
def demoFiles : List FileInput := [demoFile 1, demoFile 2, demoFile 3, demoFile 4, demoFile 5]

/-- A state with a non-default previous duration, used to witness the
reset-on-NaN behaviour. -/
def demoOddDurationState : AppState := { demoState with videoDuration := 3 }

/-! ## Guard-reduction lemmas -/

/-- Past the guards, `handleGenerateVideo` runs its try block and
reports the submitted configuration. -/
theorem handleGenerateVideo_run (s : AppState) (env : VideoEnv)
    (hprompt : jsTrim s.videoPrompt ≠ "") (hgen : s.isVideoGenerating = false)
    (hkey : s.apiKey ≠ "") :
    handleGenerateVideo s env =
      { state := (videoTryBlock s env).1
        submitted := some (videoConfigOf s)
        pollCalls := (videoTryBlock s env).2.1
        fetchCalled := (videoTryBlock s env).2.2 } := by
  unfold handleGenerateVideo
  rw [if_neg (by simp [hprompt, hgen]), if_neg hkey]

/-- Past the guards, `handleImageSubmit` issues the request and
dispatches on its outcome. -/
theorem handleImageSubmit_run (s : AppState) (env : ImageEnv)
    (hprompt : jsTrim s.imageInput ≠ "") (hload : s.isImageLoading = false)
    (hkey : s.apiKey ≠ "") :
    handleImageSubmit s env =
      match env.sendResult with
      | Except.error e =>
        { state := { imageSubmitPre s with imageError := some e, isImageLoading := false }
          request := some (imageRequestContents s) }
      | Except.ok resp =>
        let buckets := classifyParts (jsTrim s.imageInput) (respPartsOf resp)
        if buckets.1.length = 0 ∧ buckets.2.length = 0 then
          { state := { imageSubmitPre s with
              imageError := some noImageContentMessage
              isImageLoading := false }
            request := some (imageRequestContents s) }
        else
          { state := { imageSubmitPre s with
              imageMessages := (imageSubmitPre s).imageMessages ++
                [{ role := Role.model, parts := buckets.1 ++ buckets.2 }]
              isImageLoading := false }
            request := some (imageRequestContents s) } := by
  unfold handleImageSubmit
  rw [if_neg (by simp [hprompt, hload]), if_neg hkey]

/-! ## Claim theorems -/

/-- C1: a video job whose polled operation never reports done issues
exactly `MAX_VIDEO_POLLS` = 45 polls and no 46th; the job transitions
to Failed with the timeout error recorded, the in-progress status
cleared, the generating flag cleared, and no message appended to the
video transcript beyond the user message appended at submission. -/
theorem video_poll_ceiling (s : AppState) (env : VideoEnv)
    (hprompt : jsTrim s.videoPrompt ≠ "") (hgen : s.isVideoGenerating = false)
    (hkey : s.apiKey ≠ "")
    (op0 : Operation) (hsub : env.submitResult = Except.ok op0) (hop0 : op0.done = false)
    (hpoll : ∀ n, ∃ op, env.pollResult n = Except.ok op ∧ op.done = false) :
    (handleGenerateVideo s env).pollCalls = MAX_VIDEO_POLLS ∧
    (handleGenerateVideo s env).state.videoError = some videoTimeoutMessage ∧
    (handleGenerateVideo s env).state.videoStatus = none ∧
    (handleGenerateVideo s env).state.isVideoGenerating = false ∧
    (handleGenerateVideo s env).state.videoMessages = s.videoMessages ++ [videoUserMessage s] ∧
    (handleGenerateVideo s env).fetchCalled = false := by
  have hloop := pollLoop_never_done env.pollResult hpoll MAX_VIDEO_POLLS op0 0 hop0 (by omega)
  have htry : videoTryBlock s env =
      (videoFail (videoSubmitPre s) videoTimeoutMessage, MAX_VIDEO_POLLS, false) := by
    unfold videoTryBlock
    rw [hsub]
    dsimp only
    rw [hloop]
  rw [handleGenerateVideo_run s env hprompt hgen hkey, htry]
  exact ⟨rfl, rfl, rfl, rfl, rfl, rfl⟩

/-- Witness for C1 at a concrete state and environment. -/
theorem video_poll_ceiling_witness :
    (handleGenerateVideo demoState demoNeverEnv).pollCalls = MAX_VIDEO_POLLS ∧
    (handleGenerateVideo demoState demoNeverEnv).state.videoError = some videoTimeoutMessage ∧
    (handleGenerateVideo demoState demoNeverEnv).state.videoStatus = none ∧
    (handleGenerateVideo demoState demoNeverEnv).state.isVideoGenerating = false ∧
    (handleGenerateVideo demoState demoNeverEnv).state.videoMessages =
      demoState.videoMessages ++ [videoUserMessage demoState] ∧
    (handleGenerateVideo demoState demoNeverEnv).fetchCalled = false :=
  video_poll_ceiling demoState demoNeverEnv (by decide) rfl (by decide)
    demoPendingOp rfl rfl (fun _ => ⟨demoPendingOp, rfl, rfl⟩)

/-- C2: submitting after a duration change sends the entered value
clamped into `[MIN_VIDEO_DURATION, MAX_VIDEO_DURATION]` = [5, 8]. -/
theorem video_duration_clamped_on_submit (s : AppState) (v : Int) (env : VideoEnv)
    (hprompt : jsTrim s.videoPrompt ≠ "") (hgen : s.isVideoGenerating = false)
    (hkey : s.apiKey ≠ "") :
    (handleGenerateVideo (handleVideoDurationChange s (some v)) env).submitted =
      some { numberOfVideos := 1
             resolution := s.videoResolution
             aspect := s.videoAspect
             durationSeconds := min MAX_VIDEO_DURATION (max MIN_VIDEO_DURATION v) } ∧
    MIN_VIDEO_DURATION ≤ min MAX_VIDEO_DURATION (max MIN_VIDEO_DURATION v) ∧
    min MAX_VIDEO_DURATION (max MIN_VIDEO_DURATION v) ≤ MAX_VIDEO_DURATION := by
  refine ⟨?_, ?_, ?_⟩
  · rw [handleGenerateVideo_run (handleVideoDurationChange s (some v)) env hprompt hgen hkey]
    rfl
  · simp [MIN_VIDEO_DURATION, MAX_VIDEO_DURATION]
  · simp [MIN_VIDEO_DURATION, MAX_VIDEO_DURATION]

/-- Witness for C2: entering 2 submits 5, entering 20 submits 8, and
entering 6 submits 6. -/
theorem video_duration_clamped_on_submit_witness :
    (handleGenerateVideo (handleVideoDurationChange demoState (some 2)) demoNeverEnv).submitted =
      some { numberOfVideos := 1, resolution := "720p", aspect := "16:9", durationSeconds := 5 } ∧
    (handleGenerateVideo (handleVideoDurationChange demoState (some 20)) demoNeverEnv).submitted =
      some { numberOfVideos := 1, resolution := "720p", aspect := "16:9", durationSeconds := 8 } ∧
    (handleGenerateVideo (handleVideoDurationChange demoState (some 6)) demoNeverEnv).submitted =
      some { numberOfVideos := 1, resolution := "720p", aspect := "16:9", durationSeconds := 6 } :=
  ⟨((video_duration_clamped_on_submit demoState 2 demoNeverEnv (by decide) rfl
      (by decide)).1).trans (by decide),
   ((video_duration_clamped_on_submit demoState 20 demoNeverEnv (by decide) rfl
      (by decide)).1).trans (by decide),
   ((video_duration_clamped_on_submit demoState 6 demoNeverEnv (by decide) rfl
      (by decide)).1).trans (by decide)⟩

/-- C10: a duration input that does not parse as a number resets the
duration to the default of 6, regardless of the previous value. -/
theorem video_duration_nan_resets_to_default (s : AppState) :
    handleVideoDurationChange s none = { s with videoDuration := 6 } := rfl

/-- Witness for C10 at a state whose previous duration is 3. -/
theorem video_duration_nan_resets_to_default_witness :
    handleVideoDurationChange demoOddDurationState none =
      { demoOddDurationState with videoDuration := 6 } ∧
    (handleVideoDurationChange demoOddDurationState none).videoDuration ≠
      demoOddDurationState.videoDuration :=
  ⟨video_duration_nan_resets_to_default demoOddDurationState, by decide⟩

/-- C3: history reconstruction maps text parts of every message to
text content, maps an image part to inline binary content only when the
role of the owning message is user, and never lets an image part of a
model-authored message appear in the reconstructed history. -/
theorem history_replay_asymmetry (messages : List Message) :
    (∀ role t, buildHistoryPart role (MessagePart.text t) = some (ReqPart.text t)) ∧
    (∀ role mt data alt q, buildHistoryPart role (MessagePart.image mt data alt) = some q →
      q.isInlineData = true ∧ role = Role.user) ∧
    (∀ parts, ∀ q ∈ buildHistoryParts Role.model parts, q.isInlineData = false) ∧
    (∀ c ∈ buildHistory messages, c.role = Role.model →
      ∀ q ∈ c.parts, q.isInlineData = false) := by
  have himage : ∀ role mt data alt q,
      buildHistoryPart role (MessagePart.image mt data alt) = some q →
        q.isInlineData = true ∧ role = Role.user := by
    intro role mt data alt q h
    by_cases hcond : data ≠ "" ∧ role = Role.user
    · simp only [buildHistoryPart, if_pos hcond, Option.some.injEq] at h
      subst h
      exact ⟨rfl, hcond.2⟩
    · simp [buildHistoryPart, if_neg hcond] at h
  have hmodel : ∀ parts, ∀ q ∈ buildHistoryParts Role.model parts, q.isInlineData = false := by
    intro parts q hq
    rw [buildHistoryParts, List.mem_filterMap] at hq
    obtain ⟨p, _, hmap⟩ := hq
    cases p with
    | text t =>
      simp only [buildHistoryPart, Option.some.injEq] at hmap
      subst hmap
      rfl
    | image mt data alt =>
      rcases himage Role.model mt data alt q hmap with ⟨_, hrole⟩
      exact absurd hrole (by simp)
    | video mt url uri alt res asp dur => simp [buildHistoryPart] at hmap
  refine ⟨fun role t => rfl, himage, hmodel, ?_⟩
  intro c hc hrole q hq
  rw [buildHistory, List.mem_filterMap] at hc
  obtain ⟨m, _, hsome⟩ := hc
  by_cases hlen : (buildHistoryParts m.role m.parts).length = 0
  · simp [hlen] at hsome
  · simp only [if_neg hlen, Option.some.injEq] at hsome
    subst hsome
    simp only at hrole hq
    rw [hrole] at hq
    exact hmodel m.parts q hq

/-- Witness for C3: on a concrete transcript whose model message holds
an image part, the reconstructed history keeps the model text but drops
the model image. -/
theorem history_replay_asymmetry_witness :
    ((∀ role t, buildHistoryPart role (MessagePart.text t) = some (ReqPart.text t)) ∧
     (∀ role mt data alt q, buildHistoryPart role (MessagePart.image mt data alt) = some q →
       q.isInlineData = true ∧ role = Role.user) ∧
     (∀ parts, ∀ q ∈ buildHistoryParts Role.model parts, q.isInlineData = false) ∧
     (∀ c ∈ buildHistory demoTranscript, c.role = Role.model →
       ∀ q ∈ c.parts, q.isInlineData = false)) ∧
    buildHistory demoTranscript =
      [{ role := Role.user
         parts := [ReqPart.text "make it red", ReqPart.inlineData "REVG" "image/png"] },
       { role := Role.model, parts := [ReqPart.text "done"] }] :=
  ⟨history_replay_asymmetry demoTranscript, by decide⟩

/-- C6: setting or clearing the credential empties both transcripts,
releases every video handle held by the video transcript, and resets
the prompt inputs, the status, the reference images, and the errors of
both flows. -/
theorem credential_change_resets_everything (s : AppState) (key : String) :
    ((handleApiKeySave s key).state.imageMessages = [] ∧
     (handleApiKeySave s key).state.videoMessages = [] ∧
     (handleApiKeySave s key).released = releaseVideoResources s.videoMessages ∧
     (∀ m ∈ s.videoMessages, ∀ p ∈ m.parts, ∀ u, p.videoObjectUrl = some u →
        u ∈ (handleApiKeySave s key).released) ∧
     (handleApiKeySave s key).state.imageInput = "" ∧
     (handleApiKeySave s key).state.videoPrompt = "" ∧
     (handleApiKeySave s key).state.videoStatus = none ∧
     (handleApiKeySave s key).state.imageError = none ∧
     (handleApiKeySave s key).state.imageAttachmentError = none ∧
     (handleApiKeySave s key).state.videoError = none ∧
     (handleApiKeySave s key).state.imageReferenceImages = [] ∧
     (handleApiKeySave s key).state.videoReferenceImage = none) ∧
    ((handleClearApiKey s).state.imageMessages = [] ∧
     (handleClearApiKey s).state.videoMessages = [] ∧
     (handleClearApiKey s).released = releaseVideoResources s.videoMessages ∧
     (∀ m ∈ s.videoMessages, ∀ p ∈ m.parts, ∀ u, p.videoObjectUrl = some u →
        u ∈ (handleClearApiKey s).released) ∧
     (handleClearApiKey s).state.imageInput = "" ∧
     (handleClearApiKey s).state.videoPrompt = "" ∧
     (handleClearApiKey s).state.videoStatus = none ∧
     (handleClearApiKey s).state.imageError = none ∧
     (handleClearApiKey s).state.imageAttachmentError = none ∧
     (handleClearApiKey s).state.videoError = none ∧
     (handleClearApiKey s).state.imageReferenceImages = [] ∧
     (handleClearApiKey s).state.videoReferenceImage = none) := by
  constructor <;>
    refine ⟨rfl, rfl, rfl, ?_, rfl, rfl, rfl, rfl, rfl, rfl, rfl, rfl⟩ <;>
      (intro m hm p hp u hu; exact mem_releaseVideoResources hm hp hu)

/-- Witness for C6 at a state whose video transcript holds one
materialized handle. -/
theorem credential_change_resets_everything_witness :
    (handleApiKeySave demoStateWithVideo "new-key").released = ["blob:demo-1"] ∧
    (handleClearApiKey demoStateWithVideo).released = ["blob:demo-1"] ∧
    "blob:demo-1" ∈ (handleApiKeySave demoStateWithVideo "new-key").released :=
  ⟨by decide, by decide,
    (credential_change_resets_everything demoStateWithVideo "new-key").1.2.2.2.1
      demoVideoMessage (by decide)
      (MessagePart.video "video/mp4" "blob:demo-1" "https://example.test/video"
        (some "Generated video for prompt: A red balloon") "720p" "16:9" (some 6))
      (by decide) "blob:demo-1" rfl⟩

/-- C7: a submission with an empty trimmed prompt or an in-flight
generation is dropped with no state change and no remote call; with no
credential, no remote call is made, no message is appended, and
credential entry is requested instead. -/
theorem submit_guards (s : AppState) (venv : VideoEnv) (ienv : ImageEnv) :
    ((jsTrim s.videoPrompt = "" ∨ s.isVideoGenerating = true) →
      handleGenerateVideo s venv =
        { state := s, submitted := none, pollCalls := 0, fetchCalled := false }) ∧
    (jsTrim s.videoPrompt ≠ "" → s.isVideoGenerating = false → s.apiKey = "" →
      handleGenerateVideo s venv =
        { state := { s with isApiKeyModalOpen := true }
          submitted := none, pollCalls := 0, fetchCalled := false }) ∧
    ((jsTrim s.imageInput = "" ∨ s.isImageLoading = true) →
      handleImageSubmit s ienv = { state := s, request := none }) ∧
    (jsTrim s.imageInput ≠ "" → s.isImageLoading = false → s.apiKey = "" →
      handleImageSubmit s ienv =
        { state := { s with isApiKeyModalOpen := true }, request := none }) := by
  refine ⟨?_, ?_, ?_, ?_⟩
  · intro h
    unfold handleGenerateVideo
    rw [if_pos (by simpa using h)]
  · intro h1 h2 h3
    unfold handleGenerateVideo
    rw [if_neg (by simp [h1, h2]), if_pos h3]
  · intro h
    unfold handleImageSubmit
    rw [if_pos (by simpa using h)]
  · intro h1 h2 h3
    unfold handleImageSubmit
    rw [if_neg (by simp [h1, h2]), if_pos h3]

/-- Witness for C7: concrete empty-prompt, busy, and missing-credential
submissions for both flows. -/
theorem submit_guards_witness :
    handleGenerateVideo demoEmptyPromptState demoNeverEnv =
      { state := demoEmptyPromptState, submitted := none, pollCalls := 0, fetchCalled := false } ∧
    handleGenerateVideo demoBusyState demoNeverEnv =
      { state := demoBusyState, submitted := none, pollCalls := 0, fetchCalled := false } ∧
    handleGenerateVideo demoNoKeyState demoNeverEnv =
      { state := { demoNoKeyState with isApiKeyModalOpen := true }
        submitted := none, pollCalls := 0, fetchCalled := false } ∧
    handleImageSubmit demoEmptyPromptState demoFailImageEnv =
      { state := demoEmptyPromptState, request := none } ∧
    handleImageSubmit demoBusyState demoFailImageEnv =
      { state := demoBusyState, request := none } ∧
    handleImageSubmit demoNoKeyState demoFailImageEnv =
      { state := { demoNoKeyState with isApiKeyModalOpen := true }, request := none } :=
  ⟨(submit_guards demoEmptyPromptState demoNeverEnv demoFailImageEnv).1 (Or.inl (by decide)),
   (submit_guards demoBusyState demoNeverEnv demoFailImageEnv).1 (Or.inr rfl),
   (submit_guards demoNoKeyState demoNeverEnv demoFailImageEnv).2.1 (by decide) rfl rfl,
   (submit_guards demoEmptyPromptState demoNeverEnv demoFailImageEnv).2.2.1 (Or.inl (by decide)),
   (submit_guards demoBusyState demoNeverEnv demoFailImageEnv).2.2.1 (Or.inr rfl),
   (submit_guards demoNoKeyState demoNeverEnv demoFailImageEnv).2.2.2 (by decide) rfl rfl⟩

/-- C4: on a response with content, the resulting model message is the
partition of the response parts into the image bucket and the text
bucket, each bucket preserving response order, with all image parts
placed before all text parts. -/
theorem image_response_partition (s : AppState) (env : ImageEnv) (resp : GenResponse)
    (hprompt : jsTrim s.imageInput ≠ "") (hload : s.isImageLoading = false)
    (hkey : s.apiKey ≠ "")
    (hsend : env.sendResult = Except.ok resp)
    (hnonempty : ¬((respPartsOf resp).flatMap (respImageParts (jsTrim s.imageInput)) = [] ∧
        (respPartsOf resp).filterMap respTextPart = [])) :
    classifyParts (jsTrim s.imageInput) (respPartsOf resp) =
      ((respPartsOf resp).flatMap (respImageParts (jsTrim s.imageInput)),
       (respPartsOf resp).filterMap respTextPart) ∧
    (handleImageSubmit s env).state.imageMessages =
      s.imageMessages ++ [imageUserMessage s,
        { role := Role.model
          parts := (respPartsOf resp).flatMap (respImageParts (jsTrim s.imageInput)) ++
            (respPartsOf resp).filterMap respTextPart }] := by
  have hcl := classifyParts_eq (jsTrim s.imageInput) (respPartsOf resp)
  refine ⟨hcl, ?_⟩
  rw [handleImageSubmit_run s env hprompt hload hkey, hsend]
  dsimp only
  rw [hcl]
  rw [if_neg (by
    simp only [List.length_eq_zero]
    exact hnonempty)]
  simp [imageSubmitPre]

/-- Witness for C4: a concrete response with an inline image, a
file-reference image, and a text part. -/
theorem image_response_partition_witness :
    (handleImageSubmit demoState demoOkImageEnv).state.imageMessages =
      demoState.imageMessages ++ [imageUserMessage demoState,
        { role := Role.model
          parts := (respPartsOf demoGenResponse).flatMap
              (respImageParts (jsTrim demoState.imageInput)) ++
            (respPartsOf demoGenResponse).filterMap respTextPart }] ∧
    (respPartsOf demoGenResponse).flatMap (respImageParts (jsTrim demoState.imageInput)) =
      [MessagePart.image "image/png" "QUJD" (some "Generated image for prompt: A red balloon"),
       MessagePart.image "image/png" "" (some "Image available at https://files.test/1")] ∧
    (respPartsOf demoGenResponse).filterMap respTextPart = [MessagePart.text "Here you go"] :=
  ⟨(image_response_partition demoState demoOkImageEnv demoGenResponse (by decide) rfl
      (by decide) rfl (by decide)).2,
   by decide, by decide⟩

/-- C5: a response yielding neither image nor text parts is a hard
failure: the flow error is set, no model message is appended, and the
loading flag and the pending reference-image list are cleared. -/
theorem image_no_content_failure (s : AppState) (env : ImageEnv) (resp : GenResponse)
    (hprompt : jsTrim s.imageInput ≠ "") (hload : s.isImageLoading = false)
    (hkey : s.apiKey ≠ "")
    (hsend : env.sendResult = Except.ok resp)
    (hempty : classifyParts (jsTrim s.imageInput) (respPartsOf resp) = ([], [])) :
    (handleImageSubmit s env).state.imageError = some noImageContentMessage ∧
    (handleImageSubmit s env).state.imageMessages = s.imageMessages ++ [imageUserMessage s] ∧
    (handleImageSubmit s env).state.isImageLoading = false ∧
    (handleImageSubmit s env).state.imageReferenceImages = [] := by
  rw [handleImageSubmit_run s env hprompt hload hkey, hsend]
  dsimp only
  rw [hempty]
  exact ⟨rfl, rfl, rfl, rfl⟩

/-- Witness for C5: a concrete response with no candidates. -/
theorem image_no_content_failure_witness :
    (handleImageSubmit demoState demoEmptyImageEnv).state.imageError =
      some noImageContentMessage ∧
    (handleImageSubmit demoState demoEmptyImageEnv).state.imageMessages =
      demoState.imageMessages ++ [imageUserMessage demoState] ∧
    (handleImageSubmit demoState demoEmptyImageEnv).state.isImageLoading = false ∧
    (handleImageSubmit demoState demoEmptyImageEnv).state.imageReferenceImages = [] :=
  image_no_content_failure demoState demoEmptyImageEnv { candidates := none }
    (by decide) rfl (by decide) rfl rfl

/-- C9: past the guards, the user message is appended before the
remote call; a failed submission leaves the transcript exactly one
message longer (the retained user message), a successful one exactly
two longer. -/
theorem image_submit_append_then_call (s : AppState) (env : ImageEnv)
    (hprompt : jsTrim s.imageInput ≠ "") (hload : s.isImageLoading = false)
    (hkey : s.apiKey ≠ "") :
    (imageSubmitPre s).imageMessages = s.imageMessages ++ [imageUserMessage s] ∧
    (imageSubmitFails s env = true →
      (handleImageSubmit s env).state.imageMessages = s.imageMessages ++ [imageUserMessage s] ∧
      (handleImageSubmit s env).state.imageMessages.length = s.imageMessages.length + 1) ∧
    (imageSubmitFails s env = false →
      ∃ modelMsg, modelMsg.role = Role.model ∧
        (handleImageSubmit s env).state.imageMessages =
          s.imageMessages ++ [imageUserMessage s, modelMsg] ∧
        (handleImageSubmit s env).state.imageMessages.length = s.imageMessages.length + 2) := by
  refine ⟨rfl, ?_, ?_⟩
  · intro hfail
    rw [handleImageSubmit_run s env hprompt hload hkey]
    cases hsend : env.sendResult with
    | error e => exact ⟨rfl, by simp [imageSubmitPre]⟩
    | ok resp =>
      simp only [imageSubmitFails, hsend, Bool.and_eq_true, List.isEmpty_iff] at hfail
      dsimp only
      rw [if_pos ⟨by simp [hfail.1], by simp [hfail.2]⟩]
      exact ⟨rfl, by simp [imageSubmitPre]⟩
  · intro hok
    rw [handleImageSubmit_run s env hprompt hload hkey]
    cases hsend : env.sendResult with
    | error e => simp [imageSubmitFails, hsend] at hok
    | ok resp =>
      simp only [imageSubmitFails, hsend, Bool.and_eq_true, List.isEmpty_iff,
        not_and] at hok
      dsimp only
      rw [if_neg (by
        intro hc
        rcases hc with ⟨h1, h2⟩
        rw [List.length_eq_zero] at h1 h2
        simp [h1, h2] at hok)]
      exact ⟨{ role := Role.model
               parts := (classifyParts (jsTrim s.imageInput) (respPartsOf resp)).1 ++
                 (classifyParts (jsTrim s.imageInput) (respPartsOf resp)).2 },
             rfl, by simp [imageSubmitPre], by simp [imageSubmitPre]⟩

/-- Witness for C9: a thrown call retains only the user message; a
successful call appends the user and model messages. -/
theorem image_submit_append_then_call_witness :
    (handleImageSubmit demoState demoFailImageEnv).state.imageMessages.length =
      demoState.imageMessages.length + 1 ∧
    (handleImageSubmit demoState demoOkImageEnv).state.imageMessages.length =
      demoState.imageMessages.length + 2 :=
  ⟨((image_submit_append_then_call demoState demoFailImageEnv (by decide) rfl
      (by decide)).2.1 rfl).2,
   by
    obtain ⟨m, hrole, hmsgs, hlen⟩ :=
      (image_submit_append_then_call demoState demoOkImageEnv (by decide) rfl
        (by decide)).2.2 (by decide)
    exact hlen⟩

/-- C8: attaching 5 valid image files when the cap is
`MAX_IMAGE_REFERENCES` = 3 and none are attached yields exactly 3
attached images and a non-empty rejection notice, rather than a silent
drop. -/
theorem attachment_limit_overflow (s : AppState) (files : List FileInput)
    (imgs : List ReferenceImageState)
    (hempty : s.imageReferenceImages = [])
    (hlen : files.length = 5)
    (hvalid : ∀ f ∈ files, jsStartsWith f.ftype "image/" = true)
    (hread : readFiles (files.take MAX_IMAGE_REFERENCES) = Except.ok imgs) :
    (handleImageReferenceChange s files).imageReferenceImages.length = MAX_IMAGE_REFERENCES ∧
    (handleImageReferenceChange s files).imageAttachmentError = some attachOverflowMessage ∧
    attachOverflowMessage ≠ "" := by
  have hfilter : files.filter (fun f => jsStartsWith f.ftype "image/") = files :=
    List.filter_eq_self.mpr hvalid
  have hread3 : readFiles (files.take 3) = Except.ok imgs := hread
  have himgs : imgs.length = 3 := by
    have h := readFiles_ok_length _ _ hread3
    rw [List.length_take, hlen] at h
    simpa using h
  have hres : handleImageReferenceChange s files =
      { s with
        imageReferenceImages := [] ++ imgs
        imageAttachmentError := some attachOverflowMessage } := by
    unfold handleImageReferenceChange
    rw [if_neg (by simp [hlen]), hempty, hfilter]
    simp only [List.length_nil, Nat.cast_zero, sub_zero, MAX_IMAGE_REFERENCES,
      Nat.cast_ofNat, hlen]
    norm_num
    rw [show Int.toNat 3 = 3 from rfl, hread3]
  rw [hres]
  exact ⟨by simp [himgs, MAX_IMAGE_REFERENCES], rfl, by decide⟩

/-- Witness for C8: five concrete image files against an empty
reference list. -/
theorem attachment_limit_overflow_witness :
    (handleImageReferenceChange demoState demoFiles).imageReferenceImages.length =
      MAX_IMAGE_REFERENCES ∧
    (handleImageReferenceChange demoState demoFiles).imageAttachmentError =
      some attachOverflowMessage ∧
    attachOverflowMessage ≠ "" :=
  attachment_limit_overflow demoState demoFiles
    [{ base64 := "ZGF0YQ==", dataUrl := "data-url-1", mimeType := "image/png", name := "photo-1.png" },
     { base64 := "ZGF0YQ==", dataUrl := "data-url-2", mimeType := "image/png", name := "photo-2.png" },
     { base64 := "ZGF0YQ==", dataUrl := "data-url-3", mimeType := "image/png", name := "photo-3.png" }]
    rfl rfl (by decide) rfl

end GeminiPlayground
